import Mathlib

/-!
Verification development for the mongo-connector repository.

The TypeScript source is shallowly embedded: pure helpers become Lean
functions; the connector's mutable fields (`client`, `db`, `connected`)
become an explicit `ConnectorState`; each asynchronous driver call is an
oracle parameter describing the outcome the MongoDB driver would deliver;
a thrown JavaScript value is an `Except` error of type `Thrown`.
-/

set_option linter.unusedVariables false

namespace MC

/-- A MongoDB ObjectId, modelled by its canonical 24-character lowercase
hexadecimal rendering: the driver stores 12 bytes and `toHexString`
prints them as lowercase hex, so constructing from a hex string lowercases it. -/
structure ObjectIdM where
  hex : String
deriving DecidableEq

/-- `ObjectId.prototype.toHexString`. -/
def toHexString (o : ObjectIdM) : String := o.hex

/-- Field values occurring in documents and filters. -/
inductive FVal where
  | str (s : String)
  | oid (o : ObjectIdM)
deriving DecidableEq

/-- Documents are schema-less field maps (`src/src/types/index.ts` Document). -/
abbrev Doc := List (String × FVal)

/-- JavaScript truthiness of a field value: the empty string is falsy,
every other string and every ObjectId object is truthy. -/
def fvalFalsy : FVal → Bool
  | FVal.str s => s.isEmpty
  | FVal.oid _ => false

/-- One character of the JavaScript character class `[a-fA-F0-9]`. -/
def isHexDigit (c : Char) : Bool :=
  c.isDigit || ('a' ≤ c && c ≤ 'f') || ('A' ≤ c && c ≤ 'F')

/-- The test `/^[a-fA-F0-9]{24}$/.test s` from `src/src/types/index.ts`
(`objectId.ts`): exactly 24 characters, all hexadecimal. -/
def isHex24 (s : String) : Bool :=
  s.length == 24 && s.toList.all isHexDigit

/-- The argument of `toObjectId` / `isValidObjectId`: an ObjectId instance,
a string, or any other JavaScript value (carried as its `String(value)`
rendering, which is all the code ever uses of it). -/
inductive JsValue where
  | oid (o : ObjectIdM)
  | str (s : String)
  | other (shown : String)
deriving DecidableEq

/-- The typed error taxonomy of `src/src/errors/`. `generic msg` is a plain
`new Error(msg)` thrown by the legacy getOne/updateOne/deleteOne paths. -/
inductive MCError where
  | connection (msg : String)
  | validation (msg : String) (field : Option String)
  | invalidObjectId (value : String)
  | duplicateKey (collection field value : String)
  | documentNotFound (collection id : String)
  | operationFailed (operation collection : String)
  | generic (msg : String)
deriving DecidableEq

/-- The shape of a raw driver/JavaScript error object as inspected by the
connector: an optional numeric `code` and an optional string `message`. -/
structure JsErr where
  code : Option Int
  message : Option String
deriving DecidableEq

/-- `toObjectId` from `src/src/types/index.ts` (`objectId.ts`). -/
def toObjectId (value : JsValue) : Except MCError ObjectIdM :=
  match value with
  | JsValue.oid o => Except.ok o
  | JsValue.str s =>
      if isHex24 s then Except.ok ⟨s.toLower⟩
      else Except.error (MCError.invalidObjectId s)
  | JsValue.other shown => Except.error (MCError.invalidObjectId shown)

/-- `isValidObjectId` from the same file; a boolean test, it never throws. -/
def isValidObjectId : JsValue → Bool
  | JsValue.oid _ => true
  | JsValue.str s => isHex24 s
  | JsValue.other _ => false

/-! ### Retry policy (`src/unnamed/part_005`, `utils/retry.ts`) -/

structure RetryOptions where
  maxAttempts : Nat
  baseDelayMs : Nat
  maxDelayMs : Nat
deriving DecidableEq

/-- `Partial<RetryOptions>`: each field optionally present. -/
structure PartialRetryOptions where
  maxAttempts : Option Nat
  baseDelayMs : Option Nat
  maxDelayMs : Option Nat
deriving DecidableEq

def DEFAULT_RETRY_OPTIONS : RetryOptions := ⟨3, 100, 5000⟩

/-- The spread `{ ...DEFAULT_RETRY_OPTIONS, ...options }`. -/
def mergeRetryOptions (p : PartialRetryOptions) : RetryOptions :=
  ⟨p.maxAttempts.getD DEFAULT_RETRY_OPTIONS.maxAttempts,
   p.baseDelayMs.getD DEFAULT_RETRY_OPTIONS.baseDelayMs,
   p.maxDelayMs.getD DEFAULT_RETRY_OPTIONS.maxDelayMs⟩

deriving instance DecidableEq for Except

/-- Observable trace of one `withRetry` run: how many times the action was
invoked, the sleeps performed (in order, in milliseconds), and the final
outcome. A thrown value of `Except.error none` models `throw undefined`
(`lastError` still undefined); `Except.error (some e)` models re-raising
the last underlying error `e`. -/
structure RetryTrace (E T : Type) where
  attempts : Nat
  delays : List Nat
  result : Except (Option E) T
deriving DecidableEq

/-- The body of `withRetry`'s `for` loop, at attempt number `attempt` with
`fuel` further attempts permitted after this one (so the final attempt runs
with `fuel = 0` and, on failure, breaks out and re-throws). The action `fn`
is indexed by the attempt number so that each invocation may have its own
outcome. -/
def retryGo {E T : Type} (fn : Nat → Except E T) (baseDelayMs maxDelayMs : Nat)
    (attempt : Nat) (fuel : Nat) : RetryTrace E T :=
  match fuel with
  | 0 =>
      match fn attempt with
      | Except.ok v => ⟨1, [], Except.ok v⟩
      | Except.error e => ⟨1, [], Except.error (some e)⟩
  | fuel' + 1 =>
      match fn attempt with
      | Except.ok v => ⟨1, [], Except.ok v⟩
      | Except.error _ =>
          let d := min (baseDelayMs * 2 ^ (attempt - 1)) maxDelayMs
          let r := retryGo fn baseDelayMs maxDelayMs (attempt + 1) fuel'
          ⟨r.attempts + 1, d :: r.delays, r.result⟩

/-- `withRetry(fn, options)`. When `maxAttempts = 0` the `for` loop is never
entered and the function falls through to `throw lastError` with
`lastError` still `undefined`. -/
def withRetry {E T : Type} (fn : Nat → Except E T) (p : PartialRetryOptions) :
    RetryTrace E T :=
  let opts := mergeRetryOptions p
  if opts.maxAttempts = 0 then ⟨0, [], Except.error none⟩
  else retryGo fn opts.baseDelayMs opts.maxDelayMs 1 (opts.maxAttempts - 1)

/-! ### Duplicate-key message parsing

The connector inspects the human-readable driver message with the two
JavaScript regular expressions `/index: (\w+)_/` and
`/dup key: \x7b (\w+): (.+) \x7d/`.  They are embedded below with exact
JavaScript semantics (leftmost match, greedy groups with backtracking,
ASCII `\w`, `.` excluding line terminators). -/

/-- JavaScript `\w`: `[A-Za-z0-9_]`. -/
def isWordChar (c : Char) : Bool := c.isAlphanum || c = '_'

/-- JavaScript `.` (no `s` flag): any character except a line terminator. -/
def isDotChar (c : Char) : Bool :=
  !(c = '\n' || c = '\r' || c = Char.ofNat 8232 || c = Char.ofNat 8233)

/-- Index (0-based) of the last occurrence of `c` in the list, if any. -/
def lastIdxOf (c : Char) : List Char → Option Nat
  | [] => none
  | a :: rest =>
      match lastIdxOf c rest with
      | some j => some (j + 1)
      | none => if a = c then some 0 else none

/-- Index of the last position where `c₁` is immediately followed by `c₂`. -/
def lastIdxOfPair (c₁ c₂ : Char) : List Char → Option Nat
  | [] => none
  | [_] => none
  | a :: b :: rest =>
      match lastIdxOfPair c₁ c₂ (b :: rest) with
      | some j => some (j + 1)
      | none => if a = c₁ ∧ b = c₂ then some 0 else none

/-- Attempt `/index: (\w+)_/` anchored at the head of `l`: after the literal
`"index: "` the greedy `(\w+)` takes the maximal word-character run and
backtracks until the next character is an underscore, i.e. the group is the
run cut at its last underscore (which must not be the run's first char). -/
def tryIndexAt (l : List Char) : Option String :=
  if l.take 7 = "index: ".toList then
    let w := (l.drop 7).takeWhile isWordChar
    match lastIdxOf '_' w with
    | some j => if 1 ≤ j then some (String.mk (w.take j)) else none
    | none => none
  else none

/-- Leftmost match of `/index: (\w+)_/`; returns capture group 1. -/
def scanIndexField : List Char → Option String
  | [] => none
  | c :: rest =>
      match tryIndexAt (c :: rest) with
      | some f => some f
      | none => scanIndexField rest

/-- `message.match(/index: (\w+)_/)?.[1]`. -/
def matchIndexField (s : String) : Option String := scanIndexField s.toList

/-- Attempt `/dup key: \x7b (\w+): (.+) \x7d/` anchored at the head of `l`:
after the literal `"dup key: \x7b "` the greedy `(\w+)` must be followed by
`": "` (no shorter prefix can be, as `:` is not a word character); the
greedy `(.+)` runs to the end of the line and backtracks to the last
`" \x7d"` within it. -/
def tryDupAt (l : List Char) : Option (String × String) :=
  if l.take 11 = "dup key: \x7b ".toList then
    let rest := l.drop 11
    let w := rest.takeWhile isWordChar
    if w.isEmpty then none
    else
      match rest.drop w.length with
      | ':' :: ' ' :: rest2 =>
          let r := rest2.takeWhile isDotChar
          match lastIdxOfPair ' ' (Char.ofNat 125) r with
          | some j => if 1 ≤ j then some (String.mk w, String.mk (r.take j)) else none
          | none => none
      | _ => none
  else none

/-- Leftmost match of `/dup key: \x7b (\w+): (.+) \x7d/`; capture groups 1, 2. -/
def scanDupKey : List Char → Option (String × String)
  | [] => none
  | c :: rest =>
      match tryDupAt (c :: rest) with
      | some p => some p
      | none => scanDupKey rest

/-- `message.match(/dup key: ... /)` capture groups `[1]` and `[2]`. -/
def matchDupKey (s : String) : Option (String × String) := scanDupKey s.toList

/-- JavaScript `a || dflt` on an optional string: `undefined` and the empty
string are falsy. -/
def jsOrS (a : Option String) (dflt : String) : String :=
  match a with
  | some s => if s.isEmpty then dflt else s
  | none => dflt

/-- `'message' in err && typeof err.message === 'string' ? err.message : ''`. -/
def jsMessage (err : JsErr) : String := err.message.getD ""

/-- `parseDuplicateKeyError` (`src/src/errors/validationError.ts` companion
`errorParser.ts`, duplicated verbatim as a private method in
`src/src/mongoConnector.ts`). -/
def parseDuplicateKeyError (err : JsErr) (collectionName : String) : Option MCError :=
  if err.code = some 11000 then
    let message := jsMessage err
    let fieldMatch := matchIndexField message
    let valueMatch := matchDupKey message
    let field := jsOrS fieldMatch (jsOrS (valueMatch.map Prod.fst) "unknown")
    let value := jsOrS (valueMatch.map Prod.snd) "unknown"
    some (MCError.duplicateKey collectionName field value)
  else none

/-- The `errInfo` payload of a MongoDB WriteError: the key list of
`keyPattern` and the entries of `keyValue` (a property may be present with
value `undefined`, hence `Option String`). -/
structure ErrInfo where
  keyPatternKeys : Option (List String)
  keyValue : Option (List (String × Option String))
deriving DecidableEq

/-- A MongoDB WriteError as read by `extractDuplicateKeyFieldInfo`. -/
structure WriteErr where
  errInfo : Option ErrInfo
  errmsg : Option String
deriving DecidableEq

/-- `extractDuplicateKeyFieldInfo` (`errorParser.ts`). -/
def extractDuplicateKeyFieldInfo (writeError : WriteErr) : String × String :=
  let fieldName :=
    match writeError.errInfo with
    | some ei =>
        match ei.keyPatternKeys with
        | some keys => jsOrS keys.head? "unknown"
        | none => "unknown"
    | none => "unknown"
  let fieldValue :=
    match writeError.errInfo with
    | some ei =>
        match ei.keyValue with
        | some kvs =>
            match kvs.lookup fieldName with
            | some (some v) => v
            | some none => "unknown"
            | none => "unknown"
        | none => "unknown"
    | none => "unknown"
  let fieldName' :=
    if fieldName = "unknown" then
      match writeError.errmsg with
      | some m =>
          if m.isEmpty then fieldName
          else
            match matchIndexField m with
            | some f => f
            | none => fieldName
      | none => fieldName
    else fieldName
  (fieldName', fieldValue)

/-! ### Connector state machine (`src/src/mongoConnector.ts`) -/

/-- The connector's mutable fields: `client !== null`, `db !== null`,
`connected`. -/
structure ConnectorState where
  clientExists : Bool
  dbSelected : Bool
  connected : Bool
deriving DecidableEq

/-- `isConnected()`: `this.connected && this.client !== null`. -/
def isConnected (st : ConnectorState) : Bool := st.connected && st.clientExists

/-- `close()`: releases the client if present (nulling `client` and `db` and
clearing `connected`); a no-op when the client is already null. -/
def close (st : ConnectorState) : ConnectorState :=
  if st.clientExists then ⟨false, false, false⟩ else st

/-- States reachable through the connector's lifecycle methods: the fresh
instance, `close()`, a successful `connect(uri, dbName?)` (which first runs
`close()`, then sets `connected` and optionally selects the database), a
failed `connect` (client discarded, `connected` false, `db` as left by the
initial `close()`), and `setDB` (guarded by `assertConnected`). -/
inductive Reachable : ConnectorState → Prop where
  | init : Reachable ⟨false, false, false⟩
  | closeStep {st} : Reachable st → Reachable (close st)
  | connectOk {st} (dbNamed : Bool) :
      Reachable st → Reachable ⟨true, dbNamed || (close st).dbSelected, true⟩
  | connectFail {st} :
      Reachable st → Reachable ⟨false, (close st).dbSelected, false⟩
  | setDBStep {st} :
      Reachable st → isConnected st = true →
      Reachable ⟨st.clientExists, true, st.connected⟩

/-- The connector's state invariant: `connected` implies a live client, and a
selected database implies a live, connected client. -/
def StateInv (st : ConnectorState) : Prop :=
  (st.connected = true → st.clientExists = true) ∧
  (st.dbSelected = true → st.clientExists = true ∧ st.connected = true)

/-! ### CRUD operations

Each operation takes the connector state plus an oracle describing the
outcome the underlying driver call would deliver, and returns the value or
the thrown JavaScript value. -/

/-- The raw MongoBulkWriteError shape read by `createMany`: `code`, the set
of `writeErrors[i].index` values (present iff `err.writeErrors` is set —
note an empty array is truthy in JavaScript), and the per-index
`err.insertedIds` map (`none` for an absent entry). -/
structure BulkErr where
  code : Option Int
  writeErrorIndexes : Option (List Nat)
  insertedIds : List (Option ObjectIdM)
deriving DecidableEq

/-- A thrown JavaScript value: a typed connector error, a raw driver error,
a raw bulk-write error, or `undefined`. -/
inductive Thrown where
  | mc (e : MCError)
  | js (e : JsErr)
  | jsBulk (e : BulkErr)
  | undef
deriving DecidableEq

def notConnectedMsg : String := "MongoClient is not connected. Call connect() first."
def dbNotSelectedMsg : String := "Database not selected. Call setDB() first."

/-- `QueryOptions` from `src/src/types/index.ts`. -/
structure QueryOptions where
  limit : Option Nat
  skip : Option Nat
  sort : Option (List (String × Int))
deriving DecidableEq

/-- A `try { ... } catch (err) { throw <thrown> }` block whose catch ignores
the caught value: the body's result, or the catch's fixed thrown value. -/
def tryCatch {α : Type} (body : Except Unit α) (thrown : Thrown) : Except Thrown α :=
  match body with
  | Except.ok r => Except.ok r
  | Except.error _ => Except.error thrown

/-- `getOne`: the whole body sits in a `try` whose `catch` throws a plain
`new Error('ERROR: Could not find document.')`; there is no
`assertConnected`.  Inside the `try`: a string `_id` in the filter (when
truthy) is passed to `new ObjectId(...)`, which throws on a malformed
string; `getCollection` throws when no database is selected; then the
driver's `findOne` resolves to a document or `null`, or rejects. -/
def getOne (st : ConnectorState) (collectionName : String) (query : Doc)
    (driver : Except JsErr (Option Doc)) : Except Thrown (Option Doc) :=
  let normOk : Bool :=
    match query.lookup "_id" with
    | some (FVal.str s) => if s.isEmpty then true else isHex24 s
    | _ => true
  let tryRes : Except Unit (Option Doc) :=
    if normOk = false then Except.error ()
    else if st.dbSelected = false then Except.error ()
    else
      match driver with
      | Except.error _ => Except.error ()
      | Except.ok r => Except.ok r
  tryCatch tryRes (Thrown.mc (MCError.generic "ERROR: Could not find document."))

/-- `getMany`: `assertConnected`, database check, then the cursor (with
sort/skip/limit applied driver-side) resolves to an array or rejects; a
rejection propagates raw (there is no `try`/`catch`). -/
def getMany (st : ConnectorState) (collectionName : String) (filter : Doc)
    (options : QueryOptions) (driver : Except JsErr (List Doc)) :
    Except Thrown (List Doc) :=
  if isConnected st = false then Except.error (Thrown.mc (MCError.connection notConnectedMsg))
  else if st.dbSelected = false then Except.error (Thrown.mc (MCError.connection dbNotSelectedMsg))
  else
    match driver with
    | Except.ok l => Except.ok l
    | Except.error e => Except.error (Thrown.js e)

/-- `count`: guards then `countDocuments`. -/
def count (st : ConnectorState) (collectionName : String) (filter : Doc)
    (driver : Except JsErr Nat) : Except Thrown Nat :=
  if isConnected st = false then Except.error (Thrown.mc (MCError.connection notConnectedMsg))
  else if st.dbSelected = false then Except.error (Thrown.mc (MCError.connection dbNotSelectedMsg))
  else
    match driver with
    | Except.ok n => Except.ok n
    | Except.error e => Except.error (Thrown.js e)

/-- `exists` (named `existsDoc` here; `exists` collides with Lean syntax):
guards, then an `_id`-projected, limit-1 `findOne`; returns `doc !== null`. -/
def existsDoc (st : ConnectorState) (collectionName : String) (filter : Doc)
    (driver : Except JsErr (Option Doc)) : Except Thrown Bool :=
  if isConnected st = false then Except.error (Thrown.mc (MCError.connection notConnectedMsg))
  else if st.dbSelected = false then Except.error (Thrown.mc (MCError.connection dbNotSelectedMsg))
  else
    match driver with
    | Except.ok d => Except.ok d.isSome
    | Except.error e => Except.error (Thrown.js e)

/-- The driver's `insertOne` acknowledgment. -/
structure InsertOneResult where
  acknowledged : Bool
  insertedId : ObjectIdM
deriving DecidableEq

/-- `createOne`: guards, then `insertOne`; a non-acknowledged insert throws a
plain `Error` inside the `try`; the `catch` runs the caught value through
`parseDuplicateKeyError` and rethrows it raw when it is not a duplicate-key
error. -/
def createOne (st : ConnectorState) (collectionName : String) (newObj : Doc)
    (driver : Except JsErr InsertOneResult) : Except Thrown (ObjectIdM × Doc) :=
  if isConnected st = false then Except.error (Thrown.mc (MCError.connection notConnectedMsg))
  else if st.dbSelected = false then Except.error (Thrown.mc (MCError.connection dbNotSelectedMsg))
  else
    let tryRes : Except JsErr (ObjectIdM × Doc) :=
      match driver with
      | Except.error e => Except.error e
      | Except.ok r =>
          if r.acknowledged = false then
            Except.error ⟨none, some "Insert was not acknowledged by MongoDB"⟩
          else Except.ok (r.insertedId, newObj)
    match tryRes with
    | Except.ok v => Except.ok v
    | Except.error e =>
        match parseDuplicateKeyError e collectionName with
        | some de => Except.error (Thrown.mc de)
        | none => Except.error (Thrown.js e)

/-- `updateOne`: the whole body sits in a `try` whose `catch` throws a plain
`new Error('ERROR: Unable to update document.')`.  Inside: a falsy `_id`
throws; `new ObjectId(_id)` throws on a malformed string; `getCollection`
throws without a selected database; `findOneAndUpdate` returns the
post-update document or `null`; a null result or one without a truthy
`_id` throws. -/
def updateOne (st : ConnectorState) (collectionName : String) (uid : Option FVal)
    (driver : Except JsErr (Option Doc)) : Except Thrown Doc :=
  let tryRes : Except Unit Doc :=
    match uid with
    | none => Except.error ()
    | some idv =>
        if fvalFalsy idv then Except.error ()
        else
          let idCtorOk : Bool :=
            match idv with
            | FVal.str s => isHex24 s
            | FVal.oid _ => true
          if idCtorOk = false then Except.error ()
          else if st.dbSelected = false then Except.error ()
          else
            match driver with
            | Except.error _ => Except.error ()
            | Except.ok none => Except.error ()
            | Except.ok (some d) =>
                match d.lookup "_id" with
                | some v => if fvalFalsy v then Except.error () else Except.ok d
                | none => Except.error ()
  tryCatch tryRes (Thrown.mc (MCError.generic "ERROR: Unable to update document."))

/-- `deleteOne`: same `try`/`catch` pattern with
`new Error('ERROR: Unable to delete document.')`; success iff the driver
reports `deletedCount === 1`. -/
def deleteOne (st : ConnectorState) (collectionName : String) (uid : Option FVal)
    (driver : Except JsErr Nat) : Except Thrown Bool :=
  let tryRes : Except Unit Bool :=
    match uid with
    | none => Except.error ()
    | some idv =>
        if fvalFalsy idv then Except.error ()
        else
          let idCtorOk : Bool :=
            match idv with
            | FVal.str s => isHex24 s
            | FVal.oid _ => true
          if idCtorOk = false then Except.error ()
          else if st.dbSelected = false then Except.error ()
          else
            match driver with
            | Except.error _ => Except.error ()
            | Except.ok n => if n = 1 then Except.ok true else Except.error ()
  tryCatch tryRes (Thrown.mc (MCError.generic "ERROR: Unable to delete document."))

/-- `updateMany`: guards, then the driver's `updateMany` resolves to
`modifiedCount` or rejects (propagating raw). -/
def updateMany (st : ConnectorState) (collectionName : String) (filter update : Doc)
    (driver : Except JsErr Nat) : Except Thrown Nat :=
  if isConnected st = false then Except.error (Thrown.mc (MCError.connection notConnectedMsg))
  else if st.dbSelected = false then Except.error (Thrown.mc (MCError.connection dbNotSelectedMsg))
  else
    match driver with
    | Except.ok n => Except.ok n
    | Except.error e => Except.error (Thrown.js e)

/-- Top-level equality matching of a filter against a document (the driver
semantics for the simple key/value filters this contract covers). -/
def matchesFilter (d : Doc) (f : Doc) : Bool :=
  f.all (fun kv => d.lookup kv.fst == some kv.snd)

/-- The driver's `deleteMany` on a collection's contents: the deleted count
and the remaining documents. -/
def driverDeleteMany (docs : List Doc) (f : Doc) : Nat × List Doc :=
  ((docs.filter (fun d => matchesFilter d f)).length,
   docs.filter (fun d => !matchesFilter d f))

def deleteManyGuardMsg : String :=
  "deleteMany requires a non-empty filter. Use deleteAll() to delete all documents."

/-- `deleteMany`: guards, then the empty-filter safety check
(`Object.keys(filter).length === 0`), then the driver deletes every
matching document.  Returns the thrown/returned value and the collection's
remaining contents. -/
def deleteMany (st : ConnectorState) (collectionName : String) (filter : Doc)
    (docs : List Doc) : Except Thrown Nat × List Doc :=
  if isConnected st = false then
    (Except.error (Thrown.mc (MCError.connection notConnectedMsg)), docs)
  else if st.dbSelected = false then
    (Except.error (Thrown.mc (MCError.connection dbNotSelectedMsg)), docs)
  else if filter.length = 0 then
    (Except.error (Thrown.mc (MCError.validation deleteManyGuardMsg (some "filter"))), docs)
  else
    let r := driverDeleteMany docs filter
    (Except.ok r.fst, r.snd)

/-- `deleteAll`: guards, then calls the driver's `deleteMany` directly with
the empty filter, bypassing the safety check. -/
def deleteAll (st : ConnectorState) (collectionName : String) (docs : List Doc) :
    Except Thrown Nat × List Doc :=
  if isConnected st = false then
    (Except.error (Thrown.mc (MCError.connection notConnectedMsg)), docs)
  else if st.dbSelected = false then
    (Except.error (Thrown.mc (MCError.connection dbNotSelectedMsg)), docs)
  else
    let r := driverDeleteMany docs []
    (Except.ok r.fst, r.snd)

/-! ### createMany (`src/src/mongoConnector.ts`) -/

/-- `BulkCreateResult` from `src/src/types/index.ts`: successfully written,
id-annotated documents, and failed documents paired with their classified
errors. -/
structure BulkCreateResult where
  inserted : List (ObjectIdM × Doc)
  failed : List (Doc × MCError)
deriving DecidableEq

/-- Outcome of the unordered `insertMany`: full success delivers a per-index
`insertedIds` map; otherwise the promise rejects with a raw error. -/
inductive InsertManyOutcome where
  | success (ids : List (Option ObjectIdM))
  | failure (err : BulkErr)
deriving DecidableEq

/-- `documents.forEach` of the full-success path: each document whose
`insertResult.insertedIds[index]` is truthy is pushed to `inserted`. -/
def buildSuccess (ids : List (Option ObjectIdM)) : List Doc → Nat → List (ObjectIdM × Doc)
  | [], _ => []
  | d :: rest, i =>
      match ids.getD i none with
      | some oid => (oid, d) :: buildSuccess ids rest (i + 1)
      | none => buildSuccess ids rest (i + 1)

/-- `documents.forEach` of the partial-failure path: a document whose index
is among the write errors is pushed to `failed` with a
`DuplicateKeyError(collection, 'unknown', 'unknown')`; otherwise it is
pushed to `inserted` when `err.insertedIds?.[index]` is truthy (and silently
dropped when neither holds). -/
def buildOnError (collectionName : String) (failedIdx : List Nat)
    (ids : List (Option ObjectIdM)) : List Doc → Nat → BulkCreateResult
  | [], _ => ⟨[], []⟩
  | d :: rest, i =>
      let r := buildOnError collectionName failedIdx ids rest (i + 1)
      if i ∈ failedIdx then
        ⟨r.inserted, (d, MCError.duplicateKey collectionName "unknown" "unknown") :: r.failed⟩
      else
        match ids.getD i none with
        | some oid => ⟨(oid, d) :: r.inserted, r.failed⟩
        | none => r

/-- `createMany`: guards, `assertNotEmpty(documents, 'documents',
'createMany')`, the unordered `insertMany`, the partial-failure handler
(only for `err.code === 11000 && err.writeErrors`; any other rejection is
rethrown raw), and the final total-failure check which turns an
all-failed result into a `ValidationError`. -/
def createMany (st : ConnectorState) (collectionName : String) (documents : List Doc)
    (outcome : InsertManyOutcome) : Except Thrown BulkCreateResult :=
  if isConnected st = false then Except.error (Thrown.mc (MCError.connection notConnectedMsg))
  else if st.dbSelected = false then Except.error (Thrown.mc (MCError.connection dbNotSelectedMsg))
  else if documents.length = 0 then
    Except.error (Thrown.mc (MCError.validation "createMany: documents cannot be empty" (some "documents")))
  else
    let built : Except Thrown BulkCreateResult :=
      match outcome with
      | InsertManyOutcome.success ids =>
          Except.ok ⟨buildSuccess ids documents 0, []⟩
      | InsertManyOutcome.failure err =>
          if err.code = some 11000 ∧ err.writeErrorIndexes.isSome = true then
            Except.ok (buildOnError collectionName (err.writeErrorIndexes.getD []) err.insertedIds documents 0)
          else Except.error (Thrown.jsBulk err)
    match built with
    | Except.error t => Except.error t
    | Except.ok r =>
        if 0 < r.failed.length ∧ r.inserted.length = 0 then
          Except.error (Thrown.mc (MCError.validation
            ("All " ++ toString documents.length ++ " documents failed to insert")
            (some "documents")))
        else Except.ok r

/-- The input positions `createMany` routes to the `failed` list. -/
def failedPositions (n : Nat) : InsertManyOutcome → List Nat
  | InsertManyOutcome.success _ => []
  | InsertManyOutcome.failure err =>
      (List.range n).filter (fun j => decide (j ∈ err.writeErrorIndexes.getD []))

/-- The input positions `createMany` routes to the `inserted` list. -/
def insertedPositions (n : Nat) : InsertManyOutcome → List Nat
  | InsertManyOutcome.success ids =>
      (List.range n).filter (fun j => (ids.getD j none).isSome)
  | InsertManyOutcome.failure err =>
      (List.range n).filter
        (fun j => !decide (j ∈ err.writeErrorIndexes.getD []) && (err.insertedIds.getD j none).isSome)

/-- A well-formed driver outcome for an unordered `insertMany` of `n`
documents: on success every index receives an id; on failure the error is a
duplicate-key bulk error whose write-error indexes are a non-empty subset of
the input range, and every index without a write error was inserted and has
its id recorded. -/
def WellFormedOutcome (n : Nat) : InsertManyOutcome → Prop
  | InsertManyOutcome.success ids => ∀ j, j < n → (ids.getD j none).isSome = true
  | InsertManyOutcome.failure err =>
      err.code = some 11000 ∧
      ∃ F, err.writeErrorIndexes = some F ∧ F ≠ [] ∧ (∀ j ∈ F, j < n) ∧
        (∀ j, j < n → j ∉ F → (err.insertedIds.getD j none).isSome = true)

/-! ### Result classification helpers -/

/-- `true` when the result is a success, a typed taxonomy error, or a raw
(unwrapped) driver error; `false` for a plain generic `Error` or for a
thrown `undefined`. -/
def TypedOutcome {α : Type} : Except Thrown α → Bool
  | Except.ok _ => true
  | Except.error (Thrown.mc (MCError.generic _)) => false
  | Except.error (Thrown.mc _) => true
  | Except.error (Thrown.js _) => true
  | Except.error (Thrown.jsBulk _) => true
  | Except.error Thrown.undef => false

/-- `true` iff the result is a success or exactly the given generic error. -/
def GenericOnlyFailure {α : Type} (msg : String) : Except Thrown α → Bool
  | Except.ok _ => true
  | Except.error (Thrown.mc (MCError.generic m)) => m == msg
  | Except.error _ => false

/-- `true` iff the result is a thrown `ConnectionError`. -/
def isConnectionFailure {α : Type} : Except Thrown α → Bool
  | Except.error (Thrown.mc (MCError.connection _)) => true
  | _ => false

/-- `true` iff the result is a thrown `DocumentNotFoundError`. -/
def isDocumentNotFoundFailure {α : Type} : Except Thrown α → Bool
  | Except.error (Thrown.mc (MCError.documentNotFound _ _)) => true
  | _ => false

end MC

namespace MC

theorem stateInv_of_reachable {st : ConnectorState} (h : Reachable st) : StateInv st := by
  induction h with
  | init =>
      refine ⟨?_, ?_⟩ <;> intro hx <;> simp at hx
  | closeStep h ih =>
      unfold close
      split
      · refine ⟨?_, ?_⟩ <;> intro hx <;> simp at hx
      · exact ih
  | connectOk dbNamed h ih =>
      exact ⟨fun _ => rfl, fun _ => ⟨rfl, rfl⟩⟩
  | connectFail h ih =>
      rename_i s
      have hdbf : (close s).dbSelected = false := by
        unfold close
        split
        · rfl
        · rename_i hcl
          by_cases hdb : s.dbSelected = true
          · exact absurd (ih.2 hdb).1 (by simpa using hcl)
          · simpa using hdb
      refine ⟨?_, ?_⟩
      · intro hx; simp at hx
      · intro hx
        have hx' : (close s).dbSelected = true := hx
        rw [hdbf] at hx'
        simp at hx'
  | setDBStep h hconn ih =>
      rename_i s
      have hc : s.connected = true ∧ s.clientExists = true := by
        simpa [isConnected] using hconn
      exact ⟨fun _ => hc.2, fun _ => ⟨hc.2, hc.1⟩⟩

/-- Under the state invariant, `close` always lands in the fully reset state
(client gone, no database selected, not connected). -/
theorem close_resets {st : ConnectorState} (h : Reachable st) :
    close st = ⟨false, false, false⟩ := by
  have inv := stateInv_of_reachable h
  unfold close
  split
  · rfl
  · rename_i hcl
    have h1 : st.connected = false := by
      by_cases hcn : st.connected = true
      · exact absurd (inv.1 hcn) (by simpa using hcl)
      · simpa using hcn
    have h2 : st.dbSelected = false := by
      by_cases hdb : st.dbSelected = true
      · exact absurd (inv.2 hdb).1 (by simpa using hcl)
      · simpa using hdb
    have h3 : st.clientExists = false := by simpa using hcl
    cases st
    simp_all

/-- A try/catch with a fixed generic thrown value only ever produces its
body's success or that generic error. -/
theorem GenericOnlyFailure_tryCatch {α : Type} (msg : String) (body : Except Unit α) :
    GenericOnlyFailure msg (tryCatch body (Thrown.mc (MCError.generic msg))) = true := by
  cases body with
  | ok r => rfl
  | error e => simp [tryCatch, GenericOnlyFailure]

/-- C4: `toObjectId` returns an ObjectId argument unchanged; a string of
exactly 24 hexadecimal characters succeeds and its hex rendering
round-trips to the same 24 hex characters (the driver renders them
lowercase, so the round-trip is literal for canonical lowercase input and
case-folded otherwise); every other value — wrong length, non-hex
characters, empty, or a non-string non-identifier — raises
`InvalidObjectIdError` carrying the offending value; and `isValidObjectId`
returns `true` exactly when `toObjectId` succeeds, never raising (it is a
total boolean function). -/
theorem toObjectId_spec :
    (∀ o : ObjectIdM, toObjectId (JsValue.oid o) = Except.ok o) ∧
    (∀ s : String, isHex24 s = true →
      toObjectId (JsValue.str s) = Except.ok ⟨s.toLower⟩ ∧
      toHexString ⟨s.toLower⟩ = s.toLower ∧
      (s.toLower = s → toHexString ⟨s.toLower⟩ = s)) ∧
    (∀ s : String, isHex24 s = false →
      toObjectId (JsValue.str s) = Except.error (MCError.invalidObjectId s)) ∧
    (∀ shown : String,
      toObjectId (JsValue.other shown) = Except.error (MCError.invalidObjectId shown)) ∧
    (∀ v : JsValue, isValidObjectId v = true ↔ ∃ o, toObjectId v = Except.ok o) := by
  refine ⟨fun o => rfl, ?_, ?_, fun shown => rfl, ?_⟩
  · intro s h
    exact ⟨by simp [toObjectId, h], rfl, fun hl => by rw [toHexString, hl]⟩
  · intro s h
    simp [toObjectId, h]
  · intro v
    cases v with
    | oid o => simp [isValidObjectId, toObjectId]
    | str s =>
        cases h : isHex24 s with
        | true => simp [isValidObjectId, toObjectId, h]
        | false => simp [isValidObjectId, toObjectId, h]
    | other shown => simp [isValidObjectId, toObjectId]

theorem toObjectId_spec_witness :
    (isHex24 "507f1f77bcf86cd799439011" = true ∧
      toObjectId (JsValue.str "507f1f77bcf86cd799439011") =
        Except.ok ⟨"507f1f77bcf86cd799439011".toLower⟩) ∧
    (isHex24 "not-a-valid-id" = false ∧
      toObjectId (JsValue.str "not-a-valid-id") =
        Except.error (MCError.invalidObjectId "not-a-valid-id")) := by
  refine ⟨⟨by decide, ?_⟩, ⟨by decide, ?_⟩⟩
  · exact (toObjectId_spec.2.1 "507f1f77bcf86cd799439011" (by decide)).1
  · exact toObjectId_spec.2.2.1 "not-a-valid-id" (by decide)

theorem retryGo_allFail {T : Type} (es : Nat → JsErr) (b m : Nat) :
    ∀ (f a : Nat), 1 ≤ a →
      retryGo (fun k => (Except.error (es k) : Except JsErr T)) b m a f =
        ⟨f + 1, (List.range f).map (fun j => min (b * 2 ^ (a - 1 + j)) m),
         Except.error (some (es (a + f)))⟩ := by
  intro f
  induction f with
  | zero => intro a ha; simp [retryGo]
  | succ f ih =>
      intro a ha
      have h2 := ih (a + 1) (by omega)
      simp only [retryGo, h2]
      have e1 : a + 1 + f = a + (f + 1) := by omega
      rw [e1]
      simp only [RetryTrace.mk.injEq, true_and, and_true]
      rw [List.range_succ_eq_map, List.map_cons, List.map_map]
      congr 1
      apply List.map_congr_left
      intro j hj
      simp only [Function.comp]
      have e3 : a + 1 - 1 + j = a - 1 + Nat.succ j := by omega
      rw [e3]

/-- C5: for every merged `RetryOptions` with `maxAttempts ≥ 1` and an
action failing on every attempt, `withRetry` invokes the action exactly
`maxAttempts` times, sleeps `min(baseDelay * 2^(k-1), maxDelay)` between
attempt `k` and attempt `k+1` (the recorded delay list), and re-raises the
last underlying error (the error of the final attempt) rather than
swallowing it. -/
theorem withRetry_exhausts_spec {T : Type} (p : PartialRetryOptions) (es : Nat → JsErr)
    (h1 : 1 ≤ (mergeRetryOptions p).maxAttempts) :
    withRetry (fun k => (Except.error (es k) : Except JsErr T)) p =
      ⟨(mergeRetryOptions p).maxAttempts,
       (List.range ((mergeRetryOptions p).maxAttempts - 1)).map
         (fun k => min ((mergeRetryOptions p).baseDelayMs * 2 ^ k)
                       ((mergeRetryOptions p).maxDelayMs)),
       Except.error (some (es ((mergeRetryOptions p).maxAttempts)))⟩ := by
  have hne : ¬ (mergeRetryOptions p).maxAttempts = 0 := by omega
  simp only [withRetry, if_neg hne]
  rw [retryGo_allFail es (mergeRetryOptions p).baseDelayMs (mergeRetryOptions p).maxDelayMs
      ((mergeRetryOptions p).maxAttempts - 1) 1 (le_refl 1)]
  have e1 : (mergeRetryOptions p).maxAttempts - 1 + 1 = (mergeRetryOptions p).maxAttempts := by
    omega
  have e2 : 1 + ((mergeRetryOptions p).maxAttempts - 1) = (mergeRetryOptions p).maxAttempts := by
    omega
  rw [e1, e2]
  simp only [RetryTrace.mk.injEq, true_and, and_true]
  apply List.map_congr_left
  intro j hj
  have e3 : 1 - 1 + j = j := by omega
  rw [e3]

theorem withRetry_exhausts_spec_witness :
    1 ≤ (mergeRetryOptions ⟨none, none, none⟩).maxAttempts ∧
    withRetry (fun k => (Except.error (⟨some 5, some "boom"⟩ : JsErr) : Except JsErr Nat))
        ⟨none, none, none⟩ =
      ⟨3, [100, 200], Except.error (some ⟨some 5, some "boom"⟩)⟩ := by
  refine ⟨by decide, ?_⟩
  rw [withRetry_exhausts_spec ⟨none, none, none⟩ (fun _ => ⟨some 5, some "boom"⟩) (by decide)]
  decide

/-- C10: when the merged options carry `maxAttempts = 0` (below the
documented minimum, reachable because callers pass `Partial` options), the
`for` loop is never entered — the action is invoked zero times — and the
function executes `throw lastError` with `lastError` still `undefined`:
the thrown value is `undefined` (`Except.error none`), not an `Error` and
not any taxonomy kind. -/
theorem withRetry_zero_attempts {T : Type} (fn : Nat → Except JsErr T)
    (p : PartialRetryOptions) (h : p.maxAttempts = some 0) :
    withRetry fn p = ⟨0, [], Except.error none⟩ := by
  simp [withRetry, mergeRetryOptions, h]

theorem withRetry_zero_attempts_witness :
    (⟨some 0, none, none⟩ : PartialRetryOptions).maxAttempts = some 0 ∧
    withRetry (fun _ => (Except.ok 7 : Except JsErr Nat)) ⟨some 0, none, none⟩ =
      ⟨0, [], Except.error none⟩ :=
  ⟨rfl, withRetry_zero_attempts (fun _ => Except.ok 7) ⟨some 0, none, none⟩ rfl⟩

/-- Whenever `parseDuplicateKeyError` returns an error it is a
`DuplicateKeyError` for the given collection. -/
theorem parseDuplicateKeyError_shape (err : JsErr) (collectionName : String) :
    ∀ de, parseDuplicateKeyError err collectionName = some de →
      ∃ f v, de = MCError.duplicateKey collectionName f v := by
  intro de h
  unfold parseDuplicateKeyError at h
  split at h
  · exact ⟨_, _, (Option.some.inj h).symm⟩
  · cases h

/-- C9: for every raw store error flagged with the uniqueness-violation
code 11000 — whatever its message text — the diagnosis returns a
constructed `DuplicateKeyError` and never itself raises (both
`parseDuplicateKeyError` and `extractDuplicateKeyFieldInfo` are total);
the field name and value come from the message-text parse
(`parseDuplicateKeyError`) or from the structured `errInfo` metadata with
a message-text fallback (`extractDuplicateKeyFieldInfo`), and each defaults
to `"unknown"` when no source yields it. -/
theorem duplicateKey_diagnosis_total :
    (∀ (err : JsErr) (collectionName : String), err.code = some 11000 →
      ∃ f v, parseDuplicateKeyError err collectionName =
        some (MCError.duplicateKey collectionName f v)) ∧
    (∀ (err : JsErr) (collectionName : String), err.code = some 11000 →
      matchIndexField (jsMessage err) = none → matchDupKey (jsMessage err) = none →
      parseDuplicateKeyError err collectionName =
        some (MCError.duplicateKey collectionName "unknown" "unknown")) ∧
    (∀ we : WriteErr, we.errInfo = none → (we.errmsg = none ∨ we.errmsg = some "") →
      extractDuplicateKeyFieldInfo we = ("unknown", "unknown")) := by
  refine ⟨?_, ?_, ?_⟩
  · intro err c h
    refine ⟨jsOrS (matchIndexField (jsMessage err))
              (jsOrS ((matchDupKey (jsMessage err)).map Prod.fst) "unknown"),
            jsOrS ((matchDupKey (jsMessage err)).map Prod.snd) "unknown", ?_⟩
    simp [parseDuplicateKeyError, h]
  · intro err c h h1 h2
    simp [parseDuplicateKeyError, h, h1, h2, jsOrS]
  · intro we h1 h2
    cases h2 with
    | inl h2 => simp [extractDuplicateKeyFieldInfo, h1, h2]
    | inr h2 => simp [extractDuplicateKeyFieldInfo, h1, h2, String.isEmpty]

theorem duplicateKey_diagnosis_total_witness :
    ((⟨some 11000, some "E11000 duplicate key error collection: db.users index: name_1 dup key: \x7b name: \x22Alice\x22 \x7d"⟩ : JsErr).code = some 11000) ∧
    (∃ f v,
      parseDuplicateKeyError
        ⟨some 11000, some "E11000 duplicate key error collection: db.users index: name_1 dup key: \x7b name: \x22Alice\x22 \x7d"⟩
        "users" = some (MCError.duplicateKey "users" f v)) ∧
    ((⟨some 11000, some "garbled driver text"⟩ : JsErr).code = some 11000 ∧
      matchIndexField (jsMessage ⟨some 11000, some "garbled driver text"⟩) = none ∧
      matchDupKey (jsMessage ⟨some 11000, some "garbled driver text"⟩) = none ∧
      parseDuplicateKeyError ⟨some 11000, some "garbled driver text"⟩ "users" =
        some (MCError.duplicateKey "users" "unknown" "unknown")) := by
  refine ⟨rfl, ?_, rfl, by decide, by decide, ?_⟩
  · exact duplicateKey_diagnosis_total.1 _ "users" rfl
  · exact duplicateKey_diagnosis_total.2.1 _ "users" rfl (by decide) (by decide)

/-- C8: with a live connection and selected database, `deleteMany` with an
empty filter raises a `ValidationError` and deletes nothing (the
collection contents are returned unchanged); `deleteMany` with a non-empty
filter matching no stored document returns 0 without error and deletes
nothing; and `deleteAll` — the only sanctioned full-collection deletion —
bypasses the empty-filter guard and returns the number of deleted
documents, emptying the collection. -/
theorem deleteMany_guard_spec (st : ConnectorState) (collectionName : String)
    (docs : List Doc) (hc : isConnected st = true) (hdb : st.dbSelected = true) :
    (deleteMany st collectionName [] docs =
      (Except.error (Thrown.mc (MCError.validation deleteManyGuardMsg (some "filter"))), docs)) ∧
    (∀ f : Doc, f ≠ [] → (∀ d ∈ docs, matchesFilter d f = false) →
      deleteMany st collectionName f docs = (Except.ok 0, docs)) ∧
    (deleteAll st collectionName docs = (Except.ok docs.length, [])) := by
  refine ⟨?_, ?_, ?_⟩
  · simp [deleteMany, hc, hdb]
  · intro f hf hnm
    have hfl : ¬ f.length = 0 := by
      cases f with
      | nil => exact absurd rfl hf
      | cons a l => simp
    have hempty : docs.filter (fun d => matchesFilter d f) = [] := by
      rw [List.filter_eq_nil_iff]
      intro d hd
      simp [hnm d hd]
    have hall : docs.filter (fun d => !matchesFilter d f) = docs := by
      rw [List.filter_eq_self]
      intro d hd
      simp [hnm d hd]
    simp [deleteMany, hc, hdb, hfl, driverDeleteMany, hempty, hall]
  · have hmatch : ∀ d : Doc, matchesFilter d [] = true := fun d => rfl
    have hall : docs.filter (fun d => matchesFilter d []) = docs := by
      rw [List.filter_eq_self]
      intro d hd
      exact hmatch d
    have hempty : docs.filter (fun d => !matchesFilter d []) = [] := by
      rw [List.filter_eq_nil_iff]
      intro d hd
      simp [hmatch d]
    simp [deleteAll, hc, hdb, driverDeleteMany, hall, hempty]

theorem deleteMany_guard_spec_witness :
    (isConnected ⟨true, true, true⟩ = true ∧
      (⟨true, true, true⟩ : ConnectorState).dbSelected = true) ∧
    deleteMany ⟨true, true, true⟩ "users" [] [[("name", FVal.str "Alice")]] =
      (Except.error (Thrown.mc (MCError.validation deleteManyGuardMsg (some "filter"))),
       [[("name", FVal.str "Alice")]]) ∧
    deleteMany ⟨true, true, true⟩ "users" [("name", FVal.str "Bob")]
        [[("name", FVal.str "Alice")]] = (Except.ok 0, [[("name", FVal.str "Alice")]]) ∧
    deleteAll ⟨true, true, true⟩ "users" [[("name", FVal.str "Alice")]] =
      (Except.ok 1, []) := by
  have h := deleteMany_guard_spec ⟨true, true, true⟩ "users"
      [[("name", FVal.str "Alice")]] rfl rfl
  refine ⟨⟨rfl, rfl⟩, h.1, ?_, h.2.2⟩
  exact h.2.1 [("name", FVal.str "Bob")] (by decide) (by decide)

/-- C2 (counterexample): in a connected state with a selected database, a
rejected driver call inside `updateOne` surfaces as the plain generic
`Error('ERROR: Unable to update document.')` — not as any typed taxonomy
kind and not as an Operation-Failed wrapper — refuting the claim that every
public operation either returns its typed value or raises a taxonomy kind. -/
theorem updateOne_untyped_failure_cex :
    updateOne ⟨true, true, true⟩ "users" (some (FVal.str "ffffffffffffffffffffffff"))
        (Except.error ⟨some 5, some "network error"⟩) =
      Except.error (Thrown.mc (MCError.generic "ERROR: Unable to update document.")) ∧
    TypedOutcome (updateOne ⟨true, true, true⟩ "users"
        (some (FVal.str "ffffffffffffffffffffffff"))
        (Except.error ⟨some 5, some "network error"⟩)) = false := by
  exact ⟨by decide, by decide⟩

/-- C2 (amended): every public CRUD operation either returns its typed
success value, raises a typed taxonomy kind, or propagates the raw
underlying driver error unwrapped — except that `getOne`, `updateOne` and
`deleteOne` raise a plain generic `Error` with a fixed message on every
failure; no operation throws `undefined` and the named Operation-Failed
wrapper is never produced. -/
theorem crud_error_taxonomy_amended :
    (∀ st c f o d, TypedOutcome (getMany st c f o d) = true) ∧
    (∀ st c f d, TypedOutcome (count st c f d) = true) ∧
    (∀ st c f d, TypedOutcome (existsDoc st c f d) = true) ∧
    (∀ st c nd d, TypedOutcome (createOne st c nd d) = true) ∧
    (∀ st c ds o, TypedOutcome (createMany st c ds o) = true) ∧
    (∀ st c f u d, TypedOutcome (updateMany st c f u d) = true) ∧
    (∀ st c f docs, TypedOutcome (deleteMany st c f docs).fst = true) ∧
    (∀ st c docs, TypedOutcome (deleteAll st c docs).fst = true) ∧
    (∀ st c q d, GenericOnlyFailure "ERROR: Could not find document." (getOne st c q d) = true) ∧
    (∀ st c u d, GenericOnlyFailure "ERROR: Unable to update document." (updateOne st c u d) = true) ∧
    (∀ st c u d, GenericOnlyFailure "ERROR: Unable to delete document." (deleteOne st c u d) = true) := by
  refine ⟨?_, ?_, ?_, ?_, ?_, ?_, ?_, ?_, ?_, ?_, ?_⟩
  · intro st c f o d
    unfold getMany
    split
    · rfl
    · split
      · rfl
      · cases d <;> rfl
  · intro st c f d
    unfold count
    split
    · rfl
    · split
      · rfl
      · cases d <;> rfl
  · intro st c f d
    unfold existsDoc
    split
    · rfl
    · split
      · rfl
      · cases d <;> rfl
  · intro st c nd d
    unfold createOne
    split
    · rfl
    · split
      · rfl
      · cases d with
        | error e =>
            simp only []
            cases heq : parseDuplicateKeyError e c with
            | some de =>
                obtain ⟨f, v, rfl⟩ := parseDuplicateKeyError_shape e c de heq
                simp [heq, TypedOutcome]
            | none => simp [heq, TypedOutcome]
        | ok r =>
            by_cases ha : r.acknowledged = false
            · simp only [ha, if_pos]
              cases heq : parseDuplicateKeyError ⟨none, some "Insert was not acknowledged by MongoDB"⟩ c with
              | some de =>
                  obtain ⟨f, v, rfl⟩ := parseDuplicateKeyError_shape _ c de heq
                  simp [heq, TypedOutcome]
              | none => simp [heq, TypedOutcome]
            · simp [ha, TypedOutcome]
  · intro st c ds o
    simp only [createMany]
    split
    · rfl
    split
    · rfl
    split
    · rfl
    cases o with
    | success ids =>
        dsimp only
        split
        · rfl
        · rfl
    | failure err =>
        dsimp only
        by_cases hcw : err.code = some 11000 ∧ err.writeErrorIndexes.isSome = true
        · rw [if_pos hcw]
          dsimp only
          split
          · rfl
          · rfl
        · rw [if_neg hcw]
          rfl
  · intro st c f u d
    unfold updateMany
    split
    · rfl
    · split
      · rfl
      · cases d <;> rfl
  · intro st c f docs
    unfold deleteMany
    split
    · rfl
    · split
      · rfl
      · split
        · rfl
        · rfl
  · intro st c docs
    unfold deleteAll
    split
    · rfl
    · split
      · rfl
      · rfl
  · intro st c q d
    simp only [getOne]
    exact GenericOnlyFailure_tryCatch _ _
  · intro st c u d
    simp only [updateOne]
    exact GenericOnlyFailure_tryCatch _ _
  · intro st c u d
    simp only [deleteOne]
    exact GenericOnlyFailure_tryCatch _ _

/-- C3 (counterexample): immediately after `close()` from a fully connected
state, `getOne` does not raise a Connection failure — it has no
`assertConnected` and its catch-all rethrows the plain generic
`Error('ERROR: Could not find document.')` — refuting the claim that every
CRUD call raises Connection after close. -/
theorem getOne_after_close_cex :
    getOne (close ⟨true, true, true⟩) "users" [] (Except.ok none) =
      Except.error (Thrown.mc (MCError.generic "ERROR: Could not find document.")) ∧
    isConnectionFailure (getOne (close ⟨true, true, true⟩) "users" [] (Except.ok none)) =
      false := by
  exact ⟨by decide, by decide⟩

/-- C3 (amended): in every reachable state, after `close()` completes
`isConnected()` returns `false`, and every CRUD operation fails before
touching the driver: the eight operations guarded by `assertConnected`
(`getMany`, `count`, `exists`, `createOne`, `createMany`, `updateMany`,
`deleteMany`, `deleteAll`) raise a Connection failure, while the legacy
`getOne`, `updateOne` and `deleteOne` raise their plain generic `Error`s
instead. -/
theorem close_state_behavior_amended (st : ConnectorState) (h : Reachable st) :
    isConnected (close st) = false ∧
    (∀ c f o d, getMany (close st) c f o d =
      Except.error (Thrown.mc (MCError.connection notConnectedMsg))) ∧
    (∀ c f d, count (close st) c f d =
      Except.error (Thrown.mc (MCError.connection notConnectedMsg))) ∧
    (∀ c f d, existsDoc (close st) c f d =
      Except.error (Thrown.mc (MCError.connection notConnectedMsg))) ∧
    (∀ c nd d, createOne (close st) c nd d =
      Except.error (Thrown.mc (MCError.connection notConnectedMsg))) ∧
    (∀ c ds o, createMany (close st) c ds o =
      Except.error (Thrown.mc (MCError.connection notConnectedMsg))) ∧
    (∀ c f u d, updateMany (close st) c f u d =
      Except.error (Thrown.mc (MCError.connection notConnectedMsg))) ∧
    (∀ c f docs, deleteMany (close st) c f docs =
      (Except.error (Thrown.mc (MCError.connection notConnectedMsg)), docs)) ∧
    (∀ c docs, deleteAll (close st) c docs =
      (Except.error (Thrown.mc (MCError.connection notConnectedMsg)), docs)) ∧
    (∀ c q d, getOne (close st) c q d =
      Except.error (Thrown.mc (MCError.generic "ERROR: Could not find document."))) ∧
    (∀ c u d, updateOne (close st) c u d =
      Except.error (Thrown.mc (MCError.generic "ERROR: Unable to update document."))) ∧
    (∀ c u d, deleteOne (close st) c u d =
      Except.error (Thrown.mc (MCError.generic "ERROR: Unable to delete document."))) := by
  rw [close_resets h]
  refine ⟨rfl, fun c f o d => rfl, fun c f d => rfl, fun c f d => rfl, fun c nd d => rfl,
    fun c ds o => rfl, fun c f u d => rfl, fun c f docs => rfl, fun c docs => rfl,
    ?_, ?_, ?_⟩
  · intro c q d
    dsimp only [getOne]
    split
    · rfl
    · rfl
  · intro c u d
    dsimp only [updateOne]
    cases u with
    | none => rfl
    | some idv =>
        cases idv with
        | oid o => rfl
        | str s =>
            dsimp only
            by_cases hf : fvalFalsy (FVal.str s) = true
            · rw [if_pos hf]; rfl
            · rw [if_neg hf]
              by_cases hx : isHex24 s = false
              · rw [if_pos hx]; rfl
              · rw [if_neg hx]; rfl
  · intro c u d
    dsimp only [deleteOne]
    cases u with
    | none => rfl
    | some idv =>
        cases idv with
        | oid o => rfl
        | str s =>
            dsimp only
            by_cases hf : fvalFalsy (FVal.str s) = true
            · rw [if_pos hf]; rfl
            · rw [if_neg hf]
              by_cases hx : isHex24 s = false
              · rw [if_pos hx]; rfl
              · rw [if_neg hx]; rfl

theorem close_state_behavior_witness :
    isConnected (close ⟨true, true, true⟩) = false ∧
    getMany (close ⟨true, true, true⟩) "users" [] ⟨none, none, none⟩ (Except.ok []) =
      Except.error (Thrown.mc (MCError.connection notConnectedMsg)) ∧
    updateOne (close ⟨true, true, true⟩) "users" (some (FVal.str "ffffffffffffffffffffffff"))
        (Except.ok none) =
      Except.error (Thrown.mc (MCError.generic "ERROR: Unable to update document.")) := by
  obtain ⟨h1, hGetMany, _, _, _, _, _, _, _, _, hUpd, _⟩ :=
    close_state_behavior_amended ⟨true, true, true⟩ (Reachable.connectOk true Reachable.init)
  exact ⟨h1, hGetMany "users" [] ⟨none, none, none⟩ (Except.ok []),
    hUpd "users" (some (FVal.str "ffffffffffffffffffffffff")) (Except.ok none)⟩

/-- C6: evaluating `updateOne` at the failing input — connected state with
a selected database, a syntactically valid 24-hex identifier that matches
no stored document (the driver's `findOneAndUpdate` resolves to `null`) —
the code throws the plain generic `Error('ERROR: Unable to update
document.')` instead of the `DocumentNotFoundError` its own README
documents (the exported `DocumentNotFoundError` class is never
constructed), and driver failures are likewise collapsed to the same
generic error instead of an Operation-Failed wrapper. -/
theorem updateOne_notFound_generic :
    updateOne ⟨true, true, true⟩ "users" (some (FVal.str "aaaaaaaaaaaaaaaaaaaaaaaa"))
        (Except.ok none) =
      Except.error (Thrown.mc (MCError.generic "ERROR: Unable to update document.")) ∧
    isDocumentNotFoundFailure (updateOne ⟨true, true, true⟩ "users"
        (some (FVal.str "aaaaaaaaaaaaaaaaaaaaaaaa")) (Except.ok none)) = false := by
  exact ⟨by decide, by decide⟩

theorem buildSuccess_length (ids : List (Option ObjectIdM)) :
    ∀ (docs : List Doc) (i : Nat),
      (buildSuccess ids docs i).length =
        (List.range docs.length).countP (fun j => (ids.getD (i + j) none).isSome) := by
  intro docs
  induction docs with
  | nil => intro i; rfl
  | cons d rest ih =>
      intro i
      have hcong : (List.range rest.length).countP
            ((fun j => (ids.getD (i + j) none).isSome) ∘ Nat.succ) =
          (List.range rest.length).countP (fun j => (ids.getD (i + 1 + j) none).isSome) := by
        apply List.countP_congr
        intro x hx
        simp only [Function.comp]
        rw [show i + Nat.succ x = i + 1 + x from by omega]
      rw [List.length_cons, List.range_succ_eq_map, List.countP_cons, List.countP_map, hcong,
        ← ih (i + 1)]
      cases hid : ids.getD i none with
      | some oid =>
          simp only [buildSuccess, hid, List.length_cons]
          have : (ids.getD (i + 0) none).isSome = true := by
            rw [show i + 0 = i from rfl, hid]; rfl
          rw [this]
          simp
      | none =>
          simp only [buildSuccess, hid]
          have : (ids.getD (i + 0) none).isSome = false := by
            rw [show i + 0 = i from rfl, hid]; rfl
          rw [this]
          simp

theorem buildOnError_failed_length (cn : String) (F : List Nat)
    (ids : List (Option ObjectIdM)) :
    ∀ (docs : List Doc) (i : Nat),
      (buildOnError cn F ids docs i).failed.length =
        (List.range docs.length).countP (fun j => decide ((i + j) ∈ F)) := by
  intro docs
  induction docs with
  | nil => intro i; rfl
  | cons d rest ih =>
      intro i
      have hcong : (List.range rest.length).countP
            ((fun j => decide ((i + j) ∈ F)) ∘ Nat.succ) =
          (List.range rest.length).countP (fun j => decide ((i + 1 + j) ∈ F)) := by
        apply List.countP_congr
        intro x hx
        simp only [Function.comp]
        rw [show i + Nat.succ x = i + 1 + x from by omega]
      rw [List.length_cons, List.range_succ_eq_map, List.countP_cons, List.countP_map, hcong,
        ← ih (i + 1)]
      by_cases hF : i ∈ F
      · simp only [buildOnError, if_pos hF, List.length_cons]
        have : decide ((i + 0) ∈ F) = true := by
          rw [show i + 0 = i from rfl]; simpa using hF
        rw [this]
        simp
      · simp only [buildOnError, if_neg hF]
        have h0 : decide ((i + 0) ∈ F) = false := by
          rw [show i + 0 = i from rfl]; simpa using hF
        rw [h0]
        cases hid : ids.getD i none <;> simp

theorem buildOnError_inserted_length (cn : String) (F : List Nat)
    (ids : List (Option ObjectIdM)) :
    ∀ (docs : List Doc) (i : Nat),
      (buildOnError cn F ids docs i).inserted.length =
        (List.range docs.length).countP
          (fun j => !decide ((i + j) ∈ F) && (ids.getD (i + j) none).isSome) := by
  intro docs
  induction docs with
  | nil => intro i; rfl
  | cons d rest ih =>
      intro i
      have hcong : (List.range rest.length).countP
            ((fun j => !decide ((i + j) ∈ F) && (ids.getD (i + j) none).isSome) ∘ Nat.succ) =
          (List.range rest.length).countP
            (fun j => !decide ((i + 1 + j) ∈ F) && (ids.getD (i + 1 + j) none).isSome) := by
        apply List.countP_congr
        intro x hx
        simp only [Function.comp]
        rw [show i + Nat.succ x = i + 1 + x from by omega]
      rw [List.length_cons, List.range_succ_eq_map, List.countP_cons, List.countP_map, hcong,
        ← ih (i + 1)]
      by_cases hF : i ∈ F
      · simp only [buildOnError, if_pos hF]
        have : (!decide ((i + 0) ∈ F) && (ids.getD (i + 0) none).isSome) = false := by
          rw [show i + 0 = i from rfl]
          simp [hF]
        rw [this]
        simp
      · simp only [buildOnError, if_neg hF]
        cases hid : ids.getD i none with
        | some oid =>
            have : (!decide ((i + 0) ∈ F) && (ids.getD (i + 0) none).isSome) = true := by
              rw [show i + 0 = i from rfl, hid]
              simp [hF]
            rw [this]
            simp
        | none =>
            have : (!decide ((i + 0) ∈ F) && (ids.getD (i + 0) none).isSome) = false := by
              rw [show i + 0 = i from rfl, hid]
              simp [hF]
            rw [this]
            simp

/-- C1: for every non-empty input list and every well-formed outcome of the
underlying unordered multi-insert (full success, or a duplicate-key partial
failure whose write-error indexes are a non-empty subset of the input
range, every other index having been inserted), whenever `createMany`
returns a `BulkCreateResult` it partitions the input:
`inserted.length + failed.length` equals the input length, the two lists'
lengths agree with the disjoint position sets `insertedPositions` and
`failedPositions`, so no input position contributes a document to both
lists and none to neither. -/
theorem createMany_partitions (st : ConnectorState) (cn : String)
    (documents : List Doc) (outcome : InsertManyOutcome) (hne : documents ≠ [])
    (hwf : WellFormedOutcome documents.length outcome) :
    ∀ r, createMany st cn documents outcome = Except.ok r →
      r.inserted.length + r.failed.length = documents.length ∧
      r.inserted.length = (insertedPositions documents.length outcome).length ∧
      r.failed.length = (failedPositions documents.length outcome).length ∧
      List.Disjoint (insertedPositions documents.length outcome)
        (failedPositions documents.length outcome) := by
  intro r hr
  simp only [createMany] at hr
  split at hr
  · exact Except.noConfusion hr
  split at hr
  · exact Except.noConfusion hr
  split at hr
  · exact Except.noConfusion hr
  cases outcome with
  | success ids =>
      dsimp only at hr
      rw [if_neg (by simp)] at hr
      injection hr with hr
      subst hr
      have hins := buildSuccess_length ids documents 0
      have hzero : (List.range documents.length).countP
            (fun j => (ids.getD (0 + j) none).isSome) =
          (List.range documents.length).countP (fun j => (ids.getD j none).isSome) := by
        apply List.countP_congr
        intro x hx
        rw [Nat.zero_add]
      have hall : (List.range documents.length).countP
            (fun j => (ids.getD j none).isSome) = documents.length := by
        have h1 : ∀ a ∈ List.range documents.length,
            (fun j => (ids.getD j none).isSome) a = true :=
          fun a ha => hwf a (List.mem_range.mp ha)
        rw [List.countP_eq_length.mpr h1, List.length_range]
      refine ⟨?_, ?_, rfl, ?_⟩
      · dsimp only
        rw [hins, hzero, hall]
        simp
      · dsimp only [insertedPositions]
        rw [hins, hzero, List.countP_eq_length_filter]
      · dsimp only [failedPositions, insertedPositions]
        exact List.disjoint_nil_right _
  | failure err =>
      obtain ⟨hcode, F, hF, hFne, hFlt, hins⟩ := hwf
      dsimp only at hr
      rw [if_pos ⟨hcode, by rw [hF]; rfl⟩] at hr
      dsimp only at hr
      split at hr
      · exact Except.noConfusion hr
      rename_i hno
      injection hr with hr
      subst hr
      have hFd : err.writeErrorIndexes.getD [] = F := by rw [hF]; rfl
      have hfailed := buildOnError_failed_length cn (err.writeErrorIndexes.getD [])
        err.insertedIds documents 0
      have hinserted := buildOnError_inserted_length cn (err.writeErrorIndexes.getD [])
        err.insertedIds documents 0
      have hz1 : (List.range documents.length).countP
            (fun j => decide ((0 + j) ∈ err.writeErrorIndexes.getD [])) =
          (List.range documents.length).countP
            (fun j => decide (j ∈ err.writeErrorIndexes.getD [])) := by
        apply List.countP_congr
        intro x hx
        rw [Nat.zero_add]
      have hz2 : (List.range documents.length).countP
            (fun j => !decide ((0 + j) ∈ err.writeErrorIndexes.getD []) &&
              (err.insertedIds.getD (0 + j) none).isSome) =
          (List.range documents.length).countP
            (fun j => !decide (j ∈ err.writeErrorIndexes.getD []) &&
              (err.insertedIds.getD j none).isSome) := by
        apply List.countP_congr
        intro x hx
        rw [Nat.zero_add]
      have hcompl : (List.range documents.length).countP
            (fun j => !decide (j ∈ err.writeErrorIndexes.getD []) &&
              (err.insertedIds.getD j none).isSome) =
          (List.range documents.length).countP
            (fun j => !decide (j ∈ err.writeErrorIndexes.getD [])) := by
        apply List.countP_congr
        intro x hx
        have hx' := List.mem_range.mp hx
        rw [hFd]
        by_cases hxF : x ∈ F
        · simp [hxF]
        · simp [hxF]
          simpa using hins x hx' hxF
      have hnot : (List.range documents.length).countP
            (fun j => !decide (j ∈ err.writeErrorIndexes.getD [])) =
          (List.range documents.length).countP
            (fun a => decide ¬(decide (a ∈ err.writeErrorIndexes.getD []) = true)) := by
        apply List.countP_congr
        intro x hx
        by_cases hxF : x ∈ err.writeErrorIndexes.getD [] <;> simp [hxF]
      refine ⟨?_, ?_, ?_, ?_⟩
      · dsimp only
        rw [hinserted, hfailed, hz1, hz2, hcompl, hnot]
        have := List.length_eq_countP_add_countP
          (fun j => decide (j ∈ err.writeErrorIndexes.getD []))
          (List.range documents.length)
        rw [List.length_range] at this
        omega
      · dsimp only [insertedPositions]
        rw [hinserted, hz2, List.countP_eq_length_filter]
      · dsimp only [failedPositions]
        rw [hfailed, hz1, List.countP_eq_length_filter]
      · dsimp only [insertedPositions, failedPositions]
        intro a h1 h2
        rw [List.mem_filter] at h1 h2
        have hb1 := h1.2
        have hb2 := h2.2
        rw [Bool.and_eq_true] at hb1
        rw [hb2] at hb1
        simp at hb1

theorem createMany_partitions_witness :
    ([[("name", FVal.str "Bob")], [("name", FVal.str "Alice")],
      [("name", FVal.str "Carl")]] : List Doc) ≠ [] ∧
    WellFormedOutcome 3
      (InsertManyOutcome.failure ⟨some 11000, some [1], [some ⟨"a"⟩, none, some ⟨"c"⟩]⟩) ∧
    createMany ⟨true, true, true⟩ "users"
      [[("name", FVal.str "Bob")], [("name", FVal.str "Alice")], [("name", FVal.str "Carl")]]
      (InsertManyOutcome.failure ⟨some 11000, some [1], [some ⟨"a"⟩, none, some ⟨"c"⟩]⟩) =
      Except.ok
        ⟨[(⟨"a"⟩, [("name", FVal.str "Bob")]), (⟨"c"⟩, [("name", FVal.str "Carl")])],
         [([("name", FVal.str "Alice")], MCError.duplicateKey "users" "unknown" "unknown")]⟩ ∧
    ((⟨[(⟨"a"⟩, [("name", FVal.str "Bob")]), (⟨"c"⟩, [("name", FVal.str "Carl")])],
         [([("name", FVal.str "Alice")],
           MCError.duplicateKey "users" "unknown" "unknown")]⟩ : BulkCreateResult).inserted.length +
      (⟨[(⟨"a"⟩, [("name", FVal.str "Bob")]), (⟨"c"⟩, [("name", FVal.str "Carl")])],
         [([("name", FVal.str "Alice")],
           MCError.duplicateKey "users" "unknown" "unknown")]⟩ : BulkCreateResult).failed.length = 3 ∧
      List.Disjoint
        (insertedPositions 3
          (InsertManyOutcome.failure ⟨some 11000, some [1], [some ⟨"a"⟩, none, some ⟨"c"⟩]⟩))
        (failedPositions 3
          (InsertManyOutcome.failure ⟨some 11000, some [1], [some ⟨"a"⟩, none, some ⟨"c"⟩]⟩))) := by
  have hwf : WellFormedOutcome 3
      (InsertManyOutcome.failure ⟨some 11000, some [1], [some ⟨"a"⟩, none, some ⟨"c"⟩]⟩) :=
    ⟨rfl, [1], rfl, by decide, by decide, by decide⟩
  have h := createMany_partitions ⟨true, true, true⟩ "users"
      [[("name", FVal.str "Bob")], [("name", FVal.str "Alice")], [("name", FVal.str "Carl")]]
      (InsertManyOutcome.failure ⟨some 11000, some [1], [some ⟨"a"⟩, none, some ⟨"c"⟩]⟩)
      (by decide) hwf
      ⟨[(⟨"a"⟩, [("name", FVal.str "Bob")]), (⟨"c"⟩, [("name", FVal.str "Carl")])],
       [([("name", FVal.str "Alice")], MCError.duplicateKey "users" "unknown" "unknown")]⟩
      rfl
  exact ⟨by decide, hwf, rfl, h.1, h.2.2.2⟩

/-- C7: with a live connection, a selected database and a non-empty input,
when the unordered insert fails with a duplicate-key bulk error covering
every input index (total failure: `failed` would be non-empty and
`inserted` empty), `createMany` raises a `ValidationError` describing that
all N documents failed rather than returning; and in general `createMany`
never returns a `BulkCreateResult` whose `inserted` list is empty while
`failed` is non-empty. -/
theorem createMany_total_failure (st : ConnectorState) (cn : String)
    (documents : List Doc) (err : BulkErr) (F : List Nat)
    (hc : isConnected st = true) (hdb : st.dbSelected = true) (hne : documents ≠ [])
    (hcode : err.code = some 11000) (hF : err.writeErrorIndexes = some F)
    (hall : ∀ j, j < documents.length → j ∈ F) :
    createMany st cn documents (InsertManyOutcome.failure err) =
      Except.error (Thrown.mc (MCError.validation
        ("All " ++ toString documents.length ++ " documents failed to insert")
        (some "documents"))) ∧
    (∀ (st' : ConnectorState) (cn' : String) (docs' : List Doc)
        (o : InsertManyOutcome) (r : BulkCreateResult),
      createMany st' cn' docs' o = Except.ok r →
      ¬(r.inserted.length = 0 ∧ 0 < r.failed.length)) := by
  constructor
  · have hlen : documents.length ≠ 0 := by
      cases documents with
      | nil => exact absurd rfl hne
      | cons a l => simp
    have hFd : err.writeErrorIndexes.getD [] = F := by rw [hF]; rfl
    have hfailed := buildOnError_failed_length cn (err.writeErrorIndexes.getD [])
      err.insertedIds documents 0
    have hinserted := buildOnError_inserted_length cn (err.writeErrorIndexes.getD [])
      err.insertedIds documents 0
    have hfail_all : (buildOnError cn (err.writeErrorIndexes.getD [])
        err.insertedIds documents 0).failed.length = documents.length := by
      rw [hfailed]
      have h1 : ∀ a ∈ List.range documents.length,
          (fun j => decide ((0 + j) ∈ err.writeErrorIndexes.getD [])) a = true := by
        intro a ha
        show decide ((0 + a) ∈ err.writeErrorIndexes.getD []) = true
        rw [Nat.zero_add, hFd]
        simpa using hall a (List.mem_range.mp ha)
      rw [List.countP_eq_length.mpr h1, List.length_range]
    have hins_none : (buildOnError cn (err.writeErrorIndexes.getD [])
        err.insertedIds documents 0).inserted.length = 0 := by
      rw [hinserted, List.countP_eq_zero]
      intro a ha
      rw [Nat.zero_add, hFd]
      simp [hall a (List.mem_range.mp ha)]
    simp only [createMany, if_neg (by rw [hc]; simp : ¬isConnected st = false),
      if_neg (by rw [hdb]; simp : ¬st.dbSelected = false), if_neg hlen]
    rw [if_pos ⟨hcode, by rw [hF]; rfl⟩]
    dsimp only
    rw [if_pos ⟨by rw [hfail_all]; omega, hins_none⟩]
  · intro st' cn' docs' o r hr
    simp only [createMany] at hr
    split at hr
    · exact Except.noConfusion hr
    split at hr
    · exact Except.noConfusion hr
    split at hr
    · exact Except.noConfusion hr
    split at hr
    · exact Except.noConfusion hr
    rename_i r' heq
    split at hr
    · exact Except.noConfusion hr
    rename_i hno
    injection hr with hr
    subst hr
    intro hcontra
    exact hno ⟨hcontra.2, hcontra.1⟩

theorem createMany_total_failure_witness :
    isConnected ⟨true, true, true⟩ = true ∧
    (⟨true, true, true⟩ : ConnectorState).dbSelected = true ∧
    ([[("name", FVal.str "Alice")]] : List Doc) ≠ [] ∧
    (⟨some 11000, some [0], [none]⟩ : BulkErr).code = some 11000 ∧
    (⟨some 11000, some [0], [none]⟩ : BulkErr).writeErrorIndexes = some [0] ∧
    createMany ⟨true, true, true⟩ "users" [[("name", FVal.str "Alice")]]
      (InsertManyOutcome.failure ⟨some 11000, some [0], [none]⟩) =
      Except.error (Thrown.mc (MCError.validation
        "All 1 documents failed to insert" (some "documents"))) := by
  have h := createMany_total_failure ⟨true, true, true⟩ "users"
      [[("name", FVal.str "Alice")]] ⟨some 11000, some [0], [none]⟩ [0]
      rfl rfl (by decide) rfl rfl (by decide)
  exact ⟨rfl, rfl, by decide, rfl, rfl, h.1⟩

end MC
